import Mathlib

/-!
# Verification of the snooker game visualizer (`src/web_app.py`)

A shallow embedding of the data-handling logic of the Streamlit app:

* a game row of the "Game view" sheet (date, tournament, the two mapped
  player names, total frames, and the seven per-color proportion columns);
* the date filter `filtered_df` (lines 87-90);
* `get_player_stats` (lines 92-113): filter rows to the player, coerce
  the numeric columns (parse failure becomes 0), multiply each color by
  `Total Frames`, sum, truncate the frame total with Python `int`, and
  divide when that integer is positive;
* `create_chart`'s `Percentage Diff` column (line 118) and the sidebar
  threshold sliders (lines 49-56);
* `fuzzy_match_name` (lines 150-152) and the "Fetch Matchups" button
  handler (lines 207-228), parameterized by the fuzzy scoring function
  (the fuzzy-match library itself is treated as an external component);
* the scraping functions `fetch_tournament_list` (lines 154-168, which
  has no exception handler) and `get_upcoming_matchups_from_event`
  (lines 170-191, whose `try`/`except` catches everything), with the
  fallible HTTP fetch modeled as an `Except` input.

Numeric cells that may fail `pd.to_numeric(..., errors='coerce')` are
modeled as `Option ℚ` (`none` = parse failure / NaN), and `fillna(0)` as
`Option.getD 0`.  Dates are modeled as integers (pandas timestamps are
totally ordered; only their order is used).
-/

namespace SnookerViz

/-- The seven tracked colors, in the order of `threshold_values`
(lines 36-44), which also fixes `color_list` (line 46). -/
inductive Ball where
  | yellow | green | brown | blue | pink | black | baulk
deriving DecidableEq

/-- `color_list = list(threshold_values.keys())` (line 46). -/
def color_list : List Ball :=
  [.yellow, .green, .brown, .blue, .pink, .black, .baulk]

/-- The default slider values `threshold_values` (lines 36-44). -/
def threshold_values : Ball → ℚ
  | .yellow => 111/1000
  | .green  => 118/1000
  | .brown  => 105/1000
  | .blue   => 308/1000
  | .pink   => 118/1000
  | .black  => 357/1000
  | .baulk  => 318/1000

/-- The sliders' `min_value=0.0` (line 52). -/
def slider_min_value : ℚ := 0

/-- The sliders' `max_value=1.0` (line 53). -/
def slider_max_value : ℚ := 1

/-- One row of the "Game view" sheet after the player-name merge
(lines 25-34).  `p1Name`/`p2Name` are the mapped names (`none` when the
ID is absent from `PlayerKeys`); `totalFrames` and the seven color
fields are the raw cells, `none` when `pd.to_numeric` would fail. -/
structure Row where
  date : ℤ
  tournament : String
  p1Name : Option String
  p2Name : Option String
  totalFrames : Option ℚ
  yellow : Option ℚ
  green : Option ℚ
  brown : Option ℚ
  blue : Option ℚ
  pink : Option ℚ
  black : Option ℚ
  baulk : Option ℚ
deriving DecidableEq

/-- Access a color column of a row. -/
def Row.color (r : Row) : Ball → Option ℚ
  | .yellow => r.yellow
  | .green  => r.green
  | .brown  => r.brown
  | .blue   => r.blue
  | .pink   => r.pink
  | .black  => r.black
  | .baulk  => r.baulk

/-- A dataframe of game rows. -/
abbrev Df := List Row

/-- `pd.to_numeric(x, errors='coerce').fillna(0)`: a cell that failed to
parse becomes 0 (lines 96-98). -/
def coerce (o : Option ℚ) : ℚ := o.getD 0

/-- The row mask `(df["Player 1 Name"] == player_name) |
(df["Player 2 Name"] == player_name)` (line 93); comparing a NaN name
with a string is false. -/
def matchesPlayer (r : Row) (p : String) : Bool :=
  r.p1Name == some p || r.p2Name == some p

/-- `filtered_df = game_df[(game_df["Date"] >= start_date) &
(game_df["Date"] <= end_date)]` (lines 87-90). -/
def filtered_df (df : Df) (start_date end_date : ℤ) : Df :=
  df.filter fun r => decide (start_date ≤ r.date) && decide (r.date ≤ end_date)

/-- `player_games = df[(df["Player 1 Name"] == player_name) |
(df["Player 2 Name"] == player_name)]` (line 93). -/
def playerGames (df : Df) (p : String) : Df :=
  df.filter fun r => matchesPlayer r p

/-- A row's coerced `Total Frames` value (line 96). -/
def rowFrames (r : Row) : ℚ := coerce r.totalFrames

/-- A row's contribution to a color's weighted sum: the coerced color
cell times the coerced `Total Frames` (lines 97-99). -/
def rowWeighted (r : Row) (b : Ball) : ℚ := coerce (r.color b) * rowFrames r

/-- `weighted_sums = player_games[color_cols].sum()` after the columns
were multiplied by `Total Frames` (lines 97-101). -/
def weightedSum (df : Df) (p : String) (b : Ball) : ℚ :=
  ((playerGames df p).map fun r => rowWeighted r b).sum

/-- The exact (un-truncated) sum of the coerced `Total Frames` column of
the player's games. -/
def totalFramesSum (df : Df) (p : String) : ℚ :=
  ((playerGames df p).map rowFrames).sum

/-- Python's `int()` on a rational value: truncation toward zero. -/
def pyInt (q : ℚ) : ℤ := if 0 ≤ q then ⌊q⌋ else -⌊-q⌋

/-- `total_frames = int(player_games["Total Frames"].sum())`
(line 102). -/
def total_frames (df : Df) (p : String) : ℤ := pyInt (totalFramesSum df p)

/-- The per-color weighted average: `weighted_sums / total_frames` when
`total_frames > 0`, otherwise 0 (lines 104-107). -/
def weighted_avg (df : Df) (p : String) (b : Ball) : ℚ :=
  if 0 < total_frames df p then weightedSum df p b / (total_frames df p : ℚ)
  else 0

/-- `num_games = len(player_games)` (line 111). -/
def num_games (df : Df) (p : String) : ℕ := (playerGames df p).length

/-- The triple returned by `get_player_stats` (line 113): the per-color
averages (`avg_colors`), `num_games` and `total_frames`. -/
def get_player_stats (df : Df) (p : String) : (Ball → ℚ) × ℕ × ℤ :=
  (fun b => weighted_avg df p b, num_games df p, total_frames df p)

/-- A row used in several concrete evaluations: Alice and Bob, 4 frames,
yellow proportion 1/2, everything else 0, inside a tournament named
"Masters" on day 5. -/
def rowAB : Row :=
  { date := 5, tournament := "Masters",
    p1Name := some "Alice", p2Name := some "Bob",
    totalFrames := some 4,
    yellow := some (1/2), green := some 0, brown := some 0,
    blue := some 0, pink := some 0, black := some 0, baulk := some 0 }

/-- A row with a fractional frame count: Alice and Bob, `Total Frames`
1/2 (a value `pd.to_numeric` accepts), yellow proportion 1. -/
def rowHalf : Row :=
  { date := 5, tournament := "Masters",
    p1Name := some "Alice", p2Name := some "Bob",
    totalFrames := some (1/2),
    yellow := some 1, green := some 0, brown := some 0,
    blue := some 0, pink := some 0, black := some 0, baulk := some 0 }

/-- Row selection as described by the spec's words for the derived
statistics (used only to compare against the code): rows where the
player appears as either participant, restricted to the selected
tournament set and to the date range. -/
def spec_selected_rows (df : Df) (tournaments : List String) (s e : ℤ) (p : String) : Df :=
  df.filter fun r =>
    decide (r.tournament ∈ tournaments) &&
      (decide (s ≤ r.date) && decide (r.date ≤ e)) && matchesPlayer r p

/-- `fillna` semantics on one cell: a parse failure becomes the numeric
value 0, a numeric cell is unchanged. -/
def zeroCell (o : Option ℚ) : Option ℚ := some (coerce o)

/-- A row with every numeric cell coerced: parse failures replaced by
the number 0. -/
def zeroRow (r : Row) : Row :=
  { r with
    totalFrames := zeroCell r.totalFrames,
    yellow := zeroCell r.yellow, green := zeroCell r.green,
    brown := zeroCell r.brown, blue := zeroCell r.blue,
    pink := zeroCell r.pink, black := zeroCell r.black,
    baulk := zeroCell r.baulk }

/-- Membership in the unit interval, for stating range facts about
cell values. -/
def inUnit (q : ℚ) : Prop := 0 ≤ q ∧ q ≤ 1

/-- All seven coerced color cells of a row lie in the unit interval. -/
def rowInUnit (r : Row) : Prop :=
  inUnit (coerce r.yellow) ∧ inUnit (coerce r.green) ∧ inUnit (coerce r.brown) ∧
    inUnit (coerce r.blue) ∧ inUnit (coerce r.pink) ∧ inUnit (coerce r.black) ∧
    inUnit (coerce r.baulk)

/-- A row like `rowAB` but with a non-numeric `Total Frames` cell and a
non-numeric yellow cell. -/
def rowNaN : Row :=
  { date := 6, tournament := "Masters",
    p1Name := some "Alice", p2Name := some "Bob",
    totalFrames := none,
    yellow := none, green := some (1/4), brown := some 0,
    blue := some 0, pink := some 0, black := some 0, baulk := some 0 }

/-- A row whose `Total Frames` is the in-range but fractional value
3/2, with yellow proportion 1. -/
def rowThreeHalves : Row :=
  { date := 5, tournament := "Masters",
    p1Name := some "Alice", p2Name := some "Bob",
    totalFrames := some (3/2),
    yellow := some 1, green := some 0, brown := some 0,
    blue := some 0, pink := some 0, black := some 0, baulk := some 0 }

/-- A rational number whose denominator is 1, summed over a list, gives
an integer. -/
lemma list_sum_intCast (l : List ℚ) (h : ∀ q ∈ l, q.den = 1) :
    ∃ n : ℤ, l.sum = (n : ℚ) := by
  induction l with
  | nil => exact ⟨0, by simp⟩
  | cons a t ih =>
    obtain ⟨n, hn⟩ := ih fun q hq => h q (List.mem_cons_of_mem a hq)
    refine ⟨a.num + n, ?_⟩
    rw [List.sum_cons, hn, ← Rat.coe_int_num_of_den_eq_one (h a (List.mem_cons_self a t))]
    exact (Int.cast_add _ _).symm

/-- Python `int()` of an integer-valued rational is that integer. -/
lemma pyInt_intCast (n : ℤ) : pyInt (n : ℚ) = n := by
  unfold pyInt
  split
  · exact Int.floor_intCast n
  · rw [← Int.cast_neg, Int.floor_intCast]
    ring

/-- `pyInt 0 = 0`. -/
lemma pyInt_zero : pyInt 0 = 0 := by
  simpa using pyInt_intCast 0

/-- C1 (amended): when every coerced `Total Frames` value of the
player's selected games is an integer and their sum is positive,
`get_player_stats` returns for each color the weighted average
(sum of proportion × frames) / (sum of frames). -/
theorem get_player_stats_weighted_average (df : Df) (p : String) (b : Ball)
    (hden : ∀ r ∈ playerGames df p, (rowFrames r).den = 1)
    (hpos : 0 < totalFramesSum df p) :
    weighted_avg df p b = weightedSum df p b / totalFramesSum df p := by
  obtain ⟨n, hn⟩ :=
    list_sum_intCast ((playerGames df p).map rowFrames) (by
      intro q hq
      obtain ⟨r, hr, rfl⟩ := List.mem_map.1 hq
      exact hden r hr)
  have hS : totalFramesSum df p = (n : ℚ) := hn
  have htf : total_frames df p = n := by
    rw [total_frames, hS, pyInt_intCast]
  have hn0 : 0 < n := by
    have := hpos
    rw [hS] at this
    exact_mod_cast this
  have hcond : 0 < total_frames df p := by rw [htf]; exact hn0
  unfold weighted_avg
  rw [if_pos hcond, htf, hS]

/-- Witness for `get_player_stats_weighted_average` at a one-row
dataframe with 4 frames and yellow proportion 1/2. -/
theorem get_player_stats_weighted_average_witness :
    0 < totalFramesSum [rowAB] "Alice" ∧
      weighted_avg [rowAB] "Alice" Ball.yellow =
        weightedSum [rowAB] "Alice" Ball.yellow / totalFramesSum [rowAB] "Alice" := by
  have h1 : ∀ r ∈ playerGames [rowAB] "Alice", (rowFrames r).den = 1 := by
    intro r hr
    simp [playerGames, matchesPlayer, rowAB, List.filter] at hr
    subst hr
    norm_num [rowFrames, coerce, rowAB]
  have h2 : 0 < totalFramesSum [rowAB] "Alice" := by
    norm_num [totalFramesSum, playerGames, matchesPlayer, rowFrames, coerce, rowAB,
      List.filter]
  exact ⟨h2, get_player_stats_weighted_average [rowAB] "Alice" Ball.yellow h1 h2⟩

/-- C1 counterexample: with a single game whose `Total Frames` cell is
the numeric value 1/2, the frame total is positive, yet the returned
average (0, because `int(0.5) = 0`) differs from
(sum of proportion × frames) / (sum of frames) = 1. -/
theorem get_player_stats_fractional_frames_counterexample :
    0 < totalFramesSum [rowHalf] "Alice" ∧
      weighted_avg [rowHalf] "Alice" Ball.yellow ≠
        weightedSum [rowHalf] "Alice" Ball.yellow / totalFramesSum [rowHalf] "Alice" := by
  constructor
  · norm_num [totalFramesSum, playerGames, matchesPlayer, rowFrames, coerce, rowHalf,
      List.filter]
  · norm_num [weighted_avg, weightedSum, rowWeighted, Row.color, total_frames, pyInt,
      totalFramesSum, playerGames, matchesPlayer, rowFrames, coerce, rowHalf, List.filter]

/-- C3: when the player's selected games have a coerced frame total of
0 (in particular when there are no selected games), every per-color
weighted average returned is 0. -/
theorem get_player_stats_zero_total (df : Df) (p : String) (b : Ball)
    (h : totalFramesSum df p = 0) : weighted_avg df p b = 0 := by
  unfold weighted_avg
  rw [if_neg]
  rw [total_frames, h, pyInt_zero]
  exact lt_irrefl 0

/-- Witness for `get_player_stats_zero_total` on the empty dataframe. -/
theorem get_player_stats_zero_total_witness :
    totalFramesSum [] "Alice" = 0 ∧ weighted_avg [] "Alice" Ball.yellow = 0 := by
  have h : totalFramesSum [] "Alice" = 0 := by
    simp [totalFramesSum, playerGames]
  exact ⟨h, get_player_stats_zero_total [] "Alice" Ball.yellow h⟩

/-- C4: the date filter keeps a row exactly when its date is ≥ the
start date and ≤ the end date: both bounds are inclusive. -/
theorem filtered_df_inclusive_bounds (df : Df) (s e : ℤ) (r : Row) :
    r ∈ filtered_df df s e ↔ r ∈ df ∧ s ≤ r.date ∧ r.date ≤ e := by
  simp [filtered_df, List.mem_filter, and_assoc]

/-- C2 counterexample: in the individual-chart pipeline the row set fed
to `get_player_stats` is not restricted by the tournament selection:
with the selected tournament set `["Welsh Open"]`, the single game (in
tournament "Masters") is still aggregated (`num_games = 1`), although
the spec's row selection would keep no rows. -/
theorem tournament_filter_counterexample :
    rowAB.tournament ∉ (["Welsh Open"] : List String) ∧
      num_games (filtered_df [rowAB] 0 10) "Alice" = 1 ∧
      (spec_selected_rows [rowAB] ["Welsh Open"] 0 10 "Alice").length = 0 := by
  refine ⟨by decide, by decide, by decide⟩

/-- C2 (amended): the rows aggregated for the individual chart are
exactly those of the uploaded sheet that lie in the inclusive date
range and mention the player as either participant; the tournament
selection plays no part. -/
theorem individual_chart_row_selection (df : Df) (s e : ℤ) (p : String) :
    playerGames (filtered_df df s e) p =
      df.filter fun r =>
        matchesPlayer r p && (decide (s ≤ r.date) && decide (r.date ≤ e)) := by
  simp only [playerGames, filtered_df, List.filter_filter]

/-- `zeroRow` does not change who played the game. -/
lemma matchesPlayer_zeroRow (r : Row) (p : String) :
    matchesPlayer (zeroRow r) p = matchesPlayer r p := rfl

/-- `zeroRow` does not change the coerced frame count. -/
lemma rowFrames_zeroRow (r : Row) : rowFrames (zeroRow r) = rowFrames r := rfl

/-- `zeroRow` does not change a row's weighted color contribution. -/
lemma rowWeighted_zeroRow (r : Row) (b : Ball) :
    rowWeighted (zeroRow r) b = rowWeighted r b := by
  cases b <;> rfl

/-- Filtering to a player's games commutes with cell coercion. -/
lemma playerGames_zeroRow (df : Df) (p : String) :
    playerGames (df.map zeroRow) p = (playerGames df p).map zeroRow := by
  unfold playerGames
  rw [List.filter_map]
  rfl

/-- Coercing cells does not change the weighted color sums. -/
lemma weightedSum_zeroRow (df : Df) (p : String) (b : Ball) :
    weightedSum (df.map zeroRow) p b = weightedSum df p b := by
  unfold weightedSum
  rw [playerGames_zeroRow, List.map_map]
  have h : ((fun r => rowWeighted r b) ∘ zeroRow) = fun r => rowWeighted r b := by
    funext r
    exact rowWeighted_zeroRow r b
  rw [h]

/-- Coercing cells does not change the frame total. -/
lemma totalFramesSum_zeroRow (df : Df) (p : String) :
    totalFramesSum (df.map zeroRow) p = totalFramesSum df p := by
  unfold totalFramesSum
  rw [playerGames_zeroRow, List.map_map]
  have h : (rowFrames ∘ zeroRow) = rowFrames := by
    funext r
    exact rowFrames_zeroRow r
  rw [h]

/-- C5: non-numeric cells are equivalent to zero cells: running
`get_player_stats` after replacing every parse failure by the number 0
returns exactly the same averages, game count and frame total, so
non-numeric cells contribute nothing; moreover a row whose
`Total Frames` cell is non-numeric contributes 0 frames, and a
non-numeric color cell contributes 0 to that color's weighted sum. -/
theorem get_player_stats_coerces_nonnumeric (df : Df) (p : String) :
    get_player_stats (df.map zeroRow) p = get_player_stats df p ∧
      (∀ r : Row, r.totalFrames = none → rowFrames r = 0) ∧
      (∀ r : Row, ∀ b : Ball, r.color b = none → rowWeighted r b = 0) := by
  refine ⟨?_, ?_, ?_⟩
  · have htot : total_frames (df.map zeroRow) p = total_frames df p := by
      unfold total_frames
      rw [totalFramesSum_zeroRow]
    have hnum : num_games (df.map zeroRow) p = num_games df p := by
      unfold num_games
      rw [playerGames_zeroRow, List.length_map]
    unfold get_player_stats
    refine Prod.ext ?_ (Prod.ext ?_ ?_) <;> simp only
    · funext b
      unfold weighted_avg
      rw [weightedSum_zeroRow, htot]
    · exact hnum
    · exact htot
  · intro r h
    simp [rowFrames, coerce, h]
  · intro r b h
    simp [rowWeighted, coerce, h]

/-- Witness for `get_player_stats_coerces_nonnumeric` on a one-row
dataframe whose `Total Frames` and yellow cells failed to parse. -/
theorem get_player_stats_coerces_nonnumeric_witness :
    get_player_stats ([rowNaN].map zeroRow) "Alice" = get_player_stats [rowNaN] "Alice" ∧
      rowFrames rowNaN = 0 ∧ rowWeighted rowNaN Ball.yellow = 0 :=
  ⟨(get_player_stats_coerces_nonnumeric [rowNaN] "Alice").1,
    (get_player_stats_coerces_nonnumeric [rowNaN] "Alice").2.1 rowNaN rfl,
    (get_player_stats_coerces_nonnumeric [rowNaN] "Alice").2.2 rowNaN Ball.yellow rfl⟩

/-- C8 counterexample: a dataframe whose frame count is the nonnegative
value 3/2 and whose color cells all lie in [0,1] yields a weighted
average of 3/2, outside [0,1]: `int(1.5) = 1` truncates the divisor. -/
theorem weighted_avg_exceeds_one_counterexample :
    0 ≤ rowFrames rowThreeHalves ∧ rowInUnit rowThreeHalves ∧
      weighted_avg [rowThreeHalves] "Alice" Ball.yellow = 3/2 ∧
      ¬ weighted_avg [rowThreeHalves] "Alice" Ball.yellow ≤ 1 := by
  have havg : weighted_avg [rowThreeHalves] "Alice" Ball.yellow = 3/2 := by
    have h32 : (⌊(3:ℚ)/2⌋ : ℤ) = 1 := by norm_num
    simp [weighted_avg, weightedSum, rowWeighted, Row.color, total_frames, pyInt,
      totalFramesSum, playerGames, matchesPlayer, rowFrames, coerce, rowThreeHalves,
      List.filter, h32]
    norm_num
  refine ⟨by norm_num [rowFrames, coerce, rowThreeHalves],
    by norm_num [rowInUnit, inUnit, coerce, rowThreeHalves], havg, ?_⟩
  rw [havg]
  norm_num

/-- C8 (amended): when every `Total Frames` value of the dataframe is a
nonnegative integer after coercion and every coerced color value lies
in [0,1], each weighted average returned by `get_player_stats` lies in
[0,1]. -/
theorem weighted_avg_mem_unit_interval (df : Df) (p : String) (b : Ball)
    (hden : ∀ r ∈ df, (rowFrames r).den = 1)
    (hpos : ∀ r ∈ df, 0 ≤ rowFrames r)
    (hcol : ∀ r ∈ df, ∀ b' : Ball, inUnit (coerce (r.color b'))) :
    0 ≤ weighted_avg df p b ∧ weighted_avg df p b ≤ 1 := by
  have hsub : ∀ r ∈ playerGames df p, r ∈ df := fun r hr => List.mem_of_mem_filter hr
  by_cases hc : 0 < total_frames df p
  · obtain ⟨n, hn⟩ :=
      list_sum_intCast ((playerGames df p).map rowFrames) (by
        intro q hq
        obtain ⟨r, hr, rfl⟩ := List.mem_map.1 hq
        exact hden r (hsub r hr))
    have hSn : totalFramesSum df p = (n : ℚ) := hn
    have htf : total_frames df p = n := by rw [total_frames, hSn, pyInt_intCast]
    have hn0 : 0 < n := htf ▸ hc
    have hS0 : (0 : ℚ) < (n : ℚ) := by exact_mod_cast hn0
    have hW0 : 0 ≤ weightedSum df p b := by
      apply List.sum_nonneg
      intro x hx
      obtain ⟨r, hr, rfl⟩ := List.mem_map.1 hx
      exact mul_nonneg (hcol r (hsub r hr) b).1 (hpos r (hsub r hr))
    have hWS : weightedSum df p b ≤ totalFramesSum df p := by
      unfold weightedSum totalFramesSum
      apply List.sum_le_sum
      intro r hr
      calc rowWeighted r b = coerce (r.color b) * rowFrames r := rfl
        _ ≤ 1 * rowFrames r :=
          mul_le_mul_of_nonneg_right (hcol r (hsub r hr) b).2 (hpos r (hsub r hr))
        _ = rowFrames r := one_mul _
    unfold weighted_avg
    rw [if_pos hc, htf]
    constructor
    · exact div_nonneg hW0 (le_of_lt hS0)
    · rw [div_le_one hS0, ← hSn]
      exact hWS
  · unfold weighted_avg
    rw [if_neg hc]
    norm_num

/-- Witness for `weighted_avg_mem_unit_interval` on a one-row dataframe
with 4 frames and yellow proportion 1/2. -/
theorem weighted_avg_mem_unit_interval_witness :
    0 ≤ weighted_avg [rowAB] "Alice" Ball.yellow ∧
      weighted_avg [rowAB] "Alice" Ball.yellow ≤ 1 := by
  apply weighted_avg_mem_unit_interval
  · intro r hr
    simp at hr
    subst hr
    norm_num [rowFrames, coerce, rowAB]
  · intro r hr
    simp at hr
    subst hr
    norm_num [rowFrames, coerce, rowAB]
  · intro r hr b'
    simp at hr
    subst hr
    cases b' <;> norm_num [Row.color, inUnit, coerce, rowAB]

/-- The in-place column mutations of `get_player_stats` (lines 96-99),
as performed on the `.copy()` of the selected rows: the `Total Frames`
cell is coerced first, then each color cell is coerced and multiplied
by the (already coerced) `Total Frames` column. -/
def mutate_row (r : Row) : Row :=
  let r1 : Row := { r with totalFrames := some (coerce r.totalFrames) }
  { r1 with
    yellow := some (coerce r1.yellow * coerce r1.totalFrames),
    green := some (coerce r1.green * coerce r1.totalFrames),
    brown := some (coerce r1.brown * coerce r1.totalFrames),
    blue := some (coerce r1.blue * coerce r1.totalFrames),
    pink := some (coerce r1.pink * coerce r1.totalFrames),
    black := some (coerce r1.black * coerce r1.totalFrames),
    baulk := some (coerce r1.baulk * coerce r1.totalFrames) }

/-- State-passing version of `get_player_stats` (lines 92-113): the
first component is the caller's dataframe after the call.  The column
mutations are applied to `player_games`, the `.copy()` of the mask
selection (line 93), so the input dataframe is returned as-is. -/
def get_player_stats_st (df : Df) (p : String) : Df × ((Ball → ℚ) × ℕ × ℤ) :=
  let player_games := (df.filter fun r => matchesPlayer r p).map mutate_row
  let tf : ℤ := pyInt ((player_games.map fun r => coerce r.totalFrames).sum)
  let avgs : Ball → ℚ :=
    if 0 < tf then
      fun b => ((player_games.map fun r => coerce (r.color b)).sum) / (tf : ℚ)
    else fun _ => 0
  (df, avgs, player_games.length, tf)

/-- The mutated copy's `Total Frames` column sums to the coerced frame
total. -/
lemma st_frames_sum (df : Df) (p : String) :
    ((((df.filter fun r => matchesPlayer r p).map mutate_row).map
      fun r => coerce r.totalFrames).sum) = totalFramesSum df p := by
  rw [List.map_map]
  have h : ((fun r => coerce r.totalFrames) ∘ mutate_row) = rowFrames := by
    funext r
    rfl
  rw [h]
  rfl

/-- The mutated copy's color column sums to the weighted sum. -/
lemma st_color_sum (df : Df) (p : String) (b : Ball) :
    ((((df.filter fun r => matchesPlayer r p).map mutate_row).map
      fun r => coerce (r.color b)).sum) = weightedSum df p b := by
  rw [List.map_map]
  have h : ((fun r => coerce (r.color b)) ∘ mutate_row) = fun r => rowWeighted r b := by
    funext r
    cases b <;> rfl
  rw [h]
  rfl

/-- The state-passing run returns the same statistics as the pure
definition. -/
lemma get_player_stats_st_snd (df : Df) (p : String) :
    (get_player_stats_st df p).2 = get_player_stats df p := by
  simp only [get_player_stats_st, get_player_stats]
  refine Prod.ext ?_ (Prod.ext ?_ ?_) <;> simp only
  · funext b
    rw [st_frames_sum]
    by_cases hc : 0 < pyInt (totalFramesSum df p)
    · rw [if_pos hc, st_color_sum]
      unfold weighted_avg total_frames
      rw [if_pos hc]
    · rw [if_neg hc]
      unfold weighted_avg total_frames
      rw [if_neg hc]
  · rw [List.length_map]
    rfl
  · rw [st_frames_sum]
    rfl

/-- C9: `get_player_stats` does not mutate its input dataframe (the
column operations act on the `.copy()`), so the same dataframe can be
passed to it repeatedly — here for player `p` and then player `q` —
with results identical to fresh computations. -/
theorem get_player_stats_preserves_input (df : Df) (p q : String) :
    (get_player_stats_st df p).1 = df ∧
      (get_player_stats_st df p).2 = get_player_stats df p ∧
      (get_player_stats_st ((get_player_stats_st df p).1) q).2 = get_player_stats df q :=
  ⟨rfl, get_player_stats_st_snd df p, get_player_stats_st_snd df q⟩

/-- `Percentage Diff` as computed by `create_chart` (line 118). -/
def percentage_diff (avg thr : ℚ) : ℚ := ((avg - thr) / thr) * 100

/-- The rows of `chart_data` after the merge with the threshold table
(lines 116-118): one row per color carrying `Average Proportion`,
`Threshold` and `Percentage Diff`. -/
def create_chart_rows (avg thr : Ball → ℚ) : List (Ball × ℚ × ℚ × ℚ) :=
  color_list.map fun b => (b, avg b, thr b, percentage_diff (avg b) (thr b))

/-- C10: the sliders' minimum is 0; `create_chart` fills
`Percentage Diff` with ((Average Proportion − Threshold) / Threshold) ×
100 for every color row, with no branch guarding a zero threshold; and
that quotient satisfies its defining equation only under the
side-condition that the threshold is nonzero. -/
theorem create_chart_percentage_diff (avg thr : Ball → ℚ) (b : Ball)
    (hb : b ∈ color_list) (hthr : thr b ≠ 0) :
    slider_min_value = 0 ∧
      (b, avg b, thr b, ((avg b - thr b) / thr b) * 100) ∈ create_chart_rows avg thr ∧
      percentage_diff (avg b) (thr b) * thr b = (avg b - thr b) * 100 := by
  refine ⟨rfl, List.mem_map_of_mem _ hb, ?_⟩
  unfold percentage_diff
  field_simp

/-- Witness for `create_chart_percentage_diff` at the blue default
threshold. -/
theorem create_chart_percentage_diff_witness :
    slider_min_value = 0 ∧
      (Ball.blue, (1:ℚ)/2, threshold_values Ball.blue,
        (((1:ℚ)/2 - threshold_values Ball.blue) / threshold_values Ball.blue) * 100) ∈
        create_chart_rows (fun _ => (1:ℚ)/2) threshold_values ∧
      percentage_diff ((1:ℚ)/2) (threshold_values Ball.blue) * threshold_values Ball.blue =
        ((1:ℚ)/2 - threshold_values Ball.blue) * 100 :=
  create_chart_percentage_diff (fun _ => (1:ℚ)/2) threshold_values Ball.blue
    (by decide) (by norm_num [threshold_values])

/-- An on-screen output of the app: a positive-bias matchup line
(`st.write`, line 225, carrying the two matched names and the common
positive colors), `st.info` (line 228), `st.warning` (line 230) or
`st.error` (line 190). -/
inductive Event where
  | write : String → String → List Ball → Event
  | info : String → Event
  | warning : String → Event
  | error : String → Event
deriving DecidableEq

/-- Is an event a warning? (For stating which outputs the handler can
produce.) -/
def isWarning : Event → Bool
  | .warning _ => true
  | _ => false

/-- Python truthiness of `match_p1` / `match_p2` in
`if match_p1 and match_p2:` (line 215): `None` and the empty string are
falsy. -/
def truthy : Option String → Bool
  | none => false
  | some s => !s.isEmpty

/-- The running best of `process.extractOne`: scan the remaining
candidates, keeping the first one attaining the maximal score. -/
def bestFold (sc : String → String → ℕ) (name : String)
    (cs : List String) (acc : String × ℕ) : String × ℕ :=
  cs.foldl (fun best x => if best.2 < sc name x then (x, sc name x) else best) acc

/-- `process.extractOne(name, name_list)` (line 151), parameterized by
the scoring function `sc` of the fuzzy-match library: the best-scoring
candidate together with its score (`none` on an empty list). -/
def extractOne (sc : String → String → ℕ) (name : String) :
    List String → Option (String × ℕ)
  | [] => none
  | c :: cs => some (bestFold sc name cs (c, sc name c))

/-- `fuzzy_match_name` (lines 150-152): the best match when its score
reaches the threshold, else `None`. -/
def fuzzy_match_name (sc : String → String → ℕ) (name : String)
    (name_list : List String) (threshold : ℕ) : Option String :=
  match extractOne sc name name_list with
  | some ms => if threshold ≤ ms.2 then some ms.1 else none
  | none => none

/-- `common_positive` of the "Fetch Matchups" handler (lines 218-223):
the colors on which both matched players' averages strictly exceed the
threshold. -/
def common_positive (sc : String → String → ℕ) (pl : List String) (df : Df)
    (thr : Ball → ℚ) (m : String × String) : List Ball :=
  color_list.filter fun b =>
    decide (thr b < weighted_avg df ((fuzzy_match_name sc m.1 pl 80).getD "") b) &&
      decide (thr b < weighted_avg df ((fuzzy_match_name sc m.2 pl 80).getD "") b)

/-- The on-screen output contributed by one scraped matchup
(lines 212-226): nothing unless both fuzzy matches are truthy and the
common positive set is nonempty, in which case one `st.write` line. -/
def matchup_events (sc : String → String → ℕ) (pl : List String) (df : Df)
    (thr : Ball → ℚ) (m : String × String) : List Event :=
  if truthy (fuzzy_match_name sc m.1 pl 80) && truthy (fuzzy_match_name sc m.2 pl 80) then
    if (common_positive sc pl df thr m).isEmpty then []
    else
      [Event.write ((fuzzy_match_name sc m.1 pl 80).getD "")
        ((fuzzy_match_name sc m.2 pl 80).getD "") (common_positive sc pl df thr m)]
  else []

/-- The whole "Fetch Matchups" handler output (lines 210-228): the
per-matchup lines, followed by the generic `st.info` message when no
line was written (`shown` stayed false). -/
def fetch_matchups_handler (sc : String → String → ℕ) (pl : List String) (df : Df)
    (thr : Ball → ℚ) (matchups : List (String × String)) : List Event :=
  let body := matchups.flatMap (matchup_events sc pl df thr)
  body ++
    if body.isEmpty then
      [Event.info "No matchups with both players showing positive bias on any color."]
    else []

/-- `bestFold` starting from a candidate returns a pair of a candidate
and its score. -/
lemma bestFold_mem_score (sc : String → String → ℕ) (name : String) :
    ∀ (cs : List String) (a : String),
      ((bestFold sc name cs (a, sc name a)).1 = a ∨
          (bestFold sc name cs (a, sc name a)).1 ∈ cs) ∧
        (bestFold sc name cs (a, sc name a)).2 =
          sc name (bestFold sc name cs (a, sc name a)).1 := by
  intro cs
  induction cs with
  | nil => exact fun a => ⟨Or.inl rfl, rfl⟩
  | cons x cs ih =>
    intro a
    by_cases h : sc name a < sc name x
    · have hfold : bestFold sc name (x :: cs) (a, sc name a) =
          bestFold sc name cs (x, sc name x) := by
        simp [bestFold, List.foldl, h]
      rw [hfold]
      refine ⟨?_, (ih x).2⟩
      rcases (ih x).1 with h1 | h1
      · exact Or.inr (by rw [h1]; exact List.mem_cons_self x cs)
      · exact Or.inr (List.mem_cons_of_mem x h1)
    · have hfold : bestFold sc name (x :: cs) (a, sc name a) =
          bestFold sc name cs (a, sc name a) := by
        simp [bestFold, List.foldl, h]
      rw [hfold]
      refine ⟨?_, (ih a).2⟩
      rcases (ih a).1 with h1 | h1
      · exact Or.inl h1
      · exact Or.inr (List.mem_cons_of_mem x h1)

/-- `extractOne` returns a list element together with its score. -/
lemma extractOne_mem_score (sc : String → String → ℕ) (name : String)
    (l : List String) (m : String) (s : ℕ)
    (h : extractOne sc name l = some (m, s)) : m ∈ l ∧ s = sc name m := by
  cases l with
  | nil => simp [extractOne] at h
  | cons c cs =>
    have h' : bestFold sc name cs (c, sc name c) = (m, s) := by
      simpa [extractOne] using h
    obtain ⟨h1, h2⟩ := bestFold_mem_score sc name cs c
    rw [h'] at h1 h2
    refine ⟨?_, h2⟩
    rcases h1 with h1 | h1
    · exact h1 ▸ List.mem_cons_self c cs
    · exact List.mem_cons_of_mem c h1

/-- When every candidate scores below the threshold, `fuzzy_match_name`
returns `None`. -/
lemma fuzzy_match_name_eq_none (sc : String → String → ℕ) (name : String)
    (l : List String) (h : ∀ c ∈ l, sc name c < 80) :
    fuzzy_match_name sc name l 80 = none := by
  unfold fuzzy_match_name
  cases hE : extractOne sc name l with
  | none => rfl
  | some ms =>
    obtain ⟨hm, hs⟩ := extractOne_mem_score sc name l ms.1 ms.2 (by rw [hE])
    have hlow : ms.2 < 80 := hs ▸ h ms.1 hm
    show (if 80 ≤ ms.2 then some ms.1 else none) = none
    rw [if_neg]
    omega

/-- A matchup contributes either nothing or a single write line. -/
lemma matchup_events_shape (sc : String → String → ℕ) (pl : List String) (df : Df)
    (thr : Ball → ℚ) (m : String × String) :
    matchup_events sc pl df thr m = [] ∨
      ∃ n1 n2 bs, matchup_events sc pl df thr m = [Event.write n1 n2 bs] := by
  unfold matchup_events
  split
  · split
    · exact Or.inl rfl
    · exact Or.inr ⟨_, _, _, rfl⟩
  · exact Or.inl rfl

/-- The handler never emits a warning. -/
lemma fetch_matchups_handler_no_warning (sc : String → String → ℕ) (pl : List String)
    (df : Df) (thr : Ball → ℚ) (matchups : List (String × String)) :
    (fetch_matchups_handler sc pl df thr matchups).filter isWarning = [] := by
  have hbody : ∀ e ∈ matchups.flatMap (matchup_events sc pl df thr),
      isWarning e = false := by
    intro e he
    rw [List.mem_flatMap] at he
    obtain ⟨m, _, hem⟩ := he
    rcases matchup_events_shape sc pl df thr m with hsh | ⟨n1, n2, bs, hsh⟩
    · rw [hsh] at hem
      simp at hem
    · rw [hsh] at hem
      simp at hem
      rw [hem]
      rfl
  simp only [fetch_matchups_handler, List.filter_append]
  rw [List.filter_eq_nil_iff.mpr (by intro e he; simp [hbody e he])]
  rw [List.nil_append, List.filter_eq_nil_iff]
  intro e he
  split at he
  · simp at he
    rw [he]
    simp [isWarning]
  · simp at he

/-- C6 (amended): a scraped matchup in which either player's best fuzzy
match scores below 80 is suppressed from the positive-bias output (it
contributes no on-screen line), but no warning is shown for it — the
handler's only non-write output is the generic info message used when
no matchup qualifies. -/
theorem low_score_matchup_suppressed (sc : String → String → ℕ) (pl : List String)
    (df : Df) (thr : Ball → ℚ) (matchups : List (String × String)) (m : String × String)
    (h : (∀ c ∈ pl, sc m.1 c < 80) ∨ (∀ c ∈ pl, sc m.2 c < 80)) :
    matchup_events sc pl df thr m = [] ∧
      (fetch_matchups_handler sc pl df thr matchups).filter isWarning = [] := by
  refine ⟨?_, fetch_matchups_handler_no_warning sc pl df thr matchups⟩
  unfold matchup_events
  rcases h with h | h
  · rw [fuzzy_match_name_eq_none sc m.1 pl h]
    simp [truthy]
  · rw [fuzzy_match_name_eq_none sc m.2 pl h]
    simp [truthy]

/-- Exact-equality scoring, a concrete instance of the fuzzy-match
scoring function for evaluation. -/
def exScore (a b : String) : ℕ := if a = b then 100 else 0

/-- A concrete known-player list. -/
def exPlayers : List String := ["Ronnie", "Judd"]

/-- Witness for `low_score_matchup_suppressed`: a scraped matchup whose
first player scores 0 against every known player. -/
theorem low_score_matchup_suppressed_witness :
    matchup_events exScore exPlayers [] threshold_values ("Zhao", "Judd") = [] ∧
      (fetch_matchups_handler exScore exPlayers [] threshold_values
        [("Zhao", "Judd")]).filter isWarning = [] :=
  low_score_matchup_suppressed exScore exPlayers [] threshold_values
    [("Zhao", "Judd")] ("Zhao", "Judd")
    (Or.inl (by intro c hc; fin_cases hc <;> decide))

/-- C6 counterexample: a matchup whose first player's best fuzzy match
scores 0 (< 80) is suppressed, yet the handler output contains no
warning at all — only the generic info line shown because nothing
qualified. -/
theorem suppressed_matchup_no_warning_counterexample :
    (exPlayers.all fun c => decide (exScore "Zhao" c < 80)) = true ∧
      fetch_matchups_handler exScore exPlayers [] threshold_values [("Zhao", "Judd")] =
        [Event.info "No matchups with both players showing positive bias on any color."] ∧
      (fetch_matchups_handler exScore exPlayers [] threshold_values
        [("Zhao", "Judd")]).filter isWarning = [] := by
  refine ⟨by decide, by decide, by decide⟩

/-- An HTML anchor as the scraper reads it: its text, `href` attribute
and `title` attribute. -/
structure Anchor where
  text : String
  href : String
  title : String
deriving DecidableEq

/-- A `td.name` cell of the tournament table, holding an optional
anchor. -/
structure NameCell where
  a : Option Anchor
deriving DecidableEq

/-- A `tr.gradeA` row of the tournament table (lines 159-167): the
optional name cell and the optional date-cell text. -/
structure TournRow where
  nameCell : Option NameCell
  dateCell : Option String
deriving DecidableEq

/-- One tournament entry: the label shown in the sidebar and the event
id. -/
structure Tournament where
  label : String
  id : String
deriving DecidableEq

/-- `href.split("event=")[-1]` (line 165). -/
def href_event_id (href : String) : String := (href.splitOn "event=").getLastD ""

/-- The per-row body of the `fetch_tournament_list` loop
(lines 160-167): a row yields an entry when its name cell and anchor
are present. -/
def parse_tournament_row (row : TournRow) : Option Tournament :=
  match row.nameCell with
  | some nc =>
    match nc.a with
    | some a =>
      some { label := a.text.trim ++ " (" ++
               (match row.dateCell with | some d => d.trim | none => "") ++ ")",
             id := href_event_id a.href }
    | none => none
  | none => none

/-- `fetch_tournament_list` (lines 154-168).  The `requests.get` +
parse step is modeled as an `Except` input; the source has NO
`try`/`except` here, so a raised exception propagates to the caller. -/
def fetch_tournament_list (fetched : Except String (List TournRow)) :
    Except String (List Tournament) :=
  match fetched with
  | Except.error e => Except.error e
  | Except.ok rows => Except.ok (rows.filterMap parse_tournament_row)

/-- A `td.player` cell with its optional anchor. -/
structure PlayerCell where
  a : Option Anchor
deriving DecidableEq

/-- A `tr.oneonone` row of the event page (lines 176-187): its class
list and player cells. -/
structure MatchRow where
  classes : List String
  players : List PlayerCell
deriving DecidableEq

/-- The first CSS class starting with "round" (line 177). -/
def round_class (r : MatchRow) : Option String :=
  r.classes.find? fun c => c.startsWith "round"

/-- `title.split(",")[0].strip()` (lines 185-186). -/
def title_first (title : String) : String := ((title.splitOn ",").headD "").trim

/-- The per-row body of the matchup loop (lines 176-187): skip rows of
another round when a round is selected; keep rows with at least two
player cells whose first two anchors are present. -/
def parse_matchup (sel : Option String) (r : MatchRow) : Option (String × String) :=
  if (match sel with | some s => round_class r != some s | none => false) then none
  else
    match r.players with
    | p1 :: p2 :: _ =>
      match p1.a, p2.a with
      | some a1, some a2 => some (title_first a1.title, title_first a2.title)
      | _, _ => none
    | _ => none

/-- `get_upcoming_matchups_from_event` (lines 170-191): the whole body
runs inside `try`/`except Exception`, so a raised exception becomes an
`st.error` line and the empty matchup list. -/
def get_upcoming_matchups_from_event (fetched : Except String (List MatchRow))
    (sel : Option String) : List (String × String) × List Event :=
  match fetched with
  | Except.error e => ([], [Event.error ("Error scraping matchups: " ++ e)])
  | Except.ok rows => (rows.filterMap (parse_matchup sel), [])

/-- C7 (amended): an exception during the matchup scrape is caught and
surfaced as an on-screen error with an empty result; the
tournament-list scrape has no handler, so an exception there
propagates instead of producing an empty result. -/
theorem scrape_error_handling :
    (∀ (e : String) (sel : Option String),
        get_upcoming_matchups_from_event (Except.error e) sel =
          ([], [Event.error ("Error scraping matchups: " ++ e)])) ∧
      ∀ e : String, fetch_tournament_list (Except.error e) = Except.error e :=
  ⟨fun _ _ => rfl, fun _ => rfl⟩

/-- C7 counterexample: an exception in `fetch_tournament_list` is not
caught: the error propagates and the function does not return an empty
tournament list. -/
theorem tournament_scrape_uncaught_counterexample :
    fetch_tournament_list (Except.error "ConnectionError") =
        Except.error "ConnectionError" ∧
      fetch_tournament_list (Except.error "ConnectionError") ≠ Except.ok [] :=
  ⟨rfl, fun h => Except.noConfusion h⟩

end SnookerViz
